import Mathlib

/-!
Shallow embedding of the buffer abstraction layer in src/Buffers.cc
(namespace Buffers) together with theorems checking the specification's
claims against it.

Modelling conventions:
- Vulkan / VMA handles (VkDevice*, VmaAllocator*, VkBuffer, VmaAllocation,
  command buffers) are natural numbers; a null VkDevice* is Option.none.
- VkResult values are integers, 0 standing for VK_SUCCESS.
- Byte contents of host or device memory are lists of naturals.
- Results of external API calls (vmaMapMemory, vkAllocateCommandBuffers,
  vkBeginCommandBuffer, ...) are passed in as explicit inputs, and the
  calls the embedded code itself performs are recorded as event lists.
-/

namespace Buffers

/-- The loop of Buffers::getMemoryType (src/Buffers.cc lines 15-25), made
explicit over the remaining memory types: i is the current loop index and
mask the current value of the local uint32 variable mask, which the source
doubles (mask = mask << 1, wrapping at 2^32) on every iteration. -/
def getMemoryTypeLoop (memoryTypes : List Nat) (properties filter : Nat)
    (i mask : Nat) : Except String Nat :=
  match memoryTypes with
  | [] => Except.error "Cannot find suitable memory type!"
  | t :: rest =>
      if filter &&& mask ≠ 0 ∧ t &&& properties = properties then
        Except.ok i
      else
        getMemoryTypeLoop rest properties filter (i + 1) ((mask <<< 1) % 2 ^ 32)

/-- Buffers::getMemoryType (src/Buffers.cc lines 10-28).  The physical
device is represented by the list of propertyFlags of its enumerated
memory types (what vkGetPhysicalDeviceMemoryProperties fills in); the
C++ throw is an Except.error carrying the thrown message. -/
def getMemoryType (memoryTypes : List Nat) (properties filter : Nat) :
    Except String Nat :=
  getMemoryTypeLoop memoryTypes properties filter 0 1

/-- The acceptance predicate the claim states: bit j of the filter mask is
set and memory type j's property flags are a superset of the required
flags (bitwise AND with the required flags equals the required flags). -/
def acceptsType (memoryTypes : List Nat) (properties filter j : Nat) : Prop :=
  filter.testBit j = true ∧ memoryTypes.getD j 0 &&& properties = properties

instance (memoryTypes : List Nat) (properties filter j : Nat) :
    Decidable (acceptsType memoryTypes properties filter j) := by
  unfold acceptsType; infer_instance

/-- For a 32-bit filter value, the source's test (filter & mask) with
mask = 2^i wrapped to 32 bits is exactly the test of bit i of filter. -/
theorem filter_and_mask (filter i : Nat) (hf : filter < 2 ^ 32) :
    (filter &&& (2 ^ i % 2 ^ 32) ≠ 0) ↔ filter.testBit i = true := by
  by_cases hi : i < 32
  · rw [Nat.mod_eq_of_lt (Nat.pow_lt_pow_right (by norm_num) hi),
      Nat.and_two_pow]
    cases h : filter.testBit i <;> simp [h]
  · have hdvd : (2 : Nat) ^ 32 ∣ 2 ^ i := pow_dvd_pow 2 (le_of_not_lt hi)
    have hz : (2 : Nat) ^ i % 2 ^ 32 = 0 := Nat.dvd_iff_mod_eq_zero.mp hdvd
    have hb : filter.testBit i = false :=
      Nat.testBit_eq_false_of_lt
        (lt_of_lt_of_le hf (Nat.pow_le_pow_right (by norm_num) (le_of_not_lt hi)))
    rw [hz, Nat.and_zero, hb]
    simp

/-- One doubling step of the source's mask variable, in wrapped form. -/
theorem mask_step (i : Nat) :
    ((2 ^ i % 2 ^ 32) <<< 1) % 2 ^ 32 = 2 ^ (i + 1) % 2 ^ 32 := by
  rw [Nat.shiftLeft_eq, pow_one, pow_succ 2 i, Nat.mul_mod (2 ^ i) 2]
  norm_num

theorem getMemoryTypeLoop_ok (properties filter : Nat) (hf : filter < 2 ^ 32) :
    ∀ (memoryTypes : List Nat) (i k : Nat),
      getMemoryTypeLoop memoryTypes properties filter i (2 ^ i % 2 ^ 32) =
          Except.ok k ↔
        (i ≤ k ∧ k - i < memoryTypes.length ∧
         (filter.testBit k = true ∧
          memoryTypes.getD (k - i) 0 &&& properties = properties) ∧
         ∀ j, i ≤ j → j < k →
           ¬ (filter.testBit j = true ∧
              memoryTypes.getD (j - i) 0 &&& properties = properties)) := by
  intro memoryTypes
  induction memoryTypes with
  | nil =>
      intro i k
      simp only [getMemoryTypeLoop, List.length_nil]
      constructor
      · intro h; simp at h
      · rintro ⟨-, h, -⟩; omega
  | cons t rest ih =>
      intro i k
      simp only [getMemoryTypeLoop, List.length_cons]
      split_ifs with hcond
      · have hbit : filter.testBit i = true :=
          (filter_and_mask filter i hf).mp hcond.1
        constructor
        · intro h
          obtain rfl : i = k := by
            simpa using h
          refine ⟨le_refl _, by omega, ?_, ?_⟩
          · simpa [Nat.sub_self] using And.intro hbit hcond.2
          · intro j h1 h2; omega
        · rintro ⟨h1, _, h3, h4⟩
          rcases eq_or_lt_of_le h1 with rfl | hlt
          · rfl
          · exact absurd ⟨hbit, by simpa [Nat.sub_self] using hcond.2⟩
              (h4 i le_rfl hlt)
      · have hcnd : ¬ (filter.testBit i = true ∧
            t &&& properties = properties) := fun hh =>
          hcond ⟨(filter_and_mask filter i hf).mpr hh.1, hh.2⟩
        rw [mask_step, ih (i + 1) k]
        constructor
        · rintro ⟨h1, h2, h3, h4⟩
          refine ⟨by omega, by omega, ?_, ?_⟩
          · have he : k - i = (k - (i + 1)) + 1 := by omega
            rw [he]
            simpa using h3
          · intro j hj1 hj2
            rcases eq_or_lt_of_le hj1 with rfl | hlt
            · simpa [Nat.sub_self] using hcnd
            · have hh := h4 j (by omega) hj2
              have he : j - i = (j - (i + 1)) + 1 := by omega
              rw [he]
              simpa using hh
        · rintro ⟨h1, h2, h3, h4⟩
          have hki : i < k := by
            rcases eq_or_lt_of_le h1 with rfl | h
            · exact absurd (by simpa [Nat.sub_self] using h3) hcnd
            · exact h
          refine ⟨by omega, by omega, ?_, ?_⟩
          · have he : k - i = (k - (i + 1)) + 1 := by omega
            rw [he] at h3
            simpa using h3
          · intro j hj1 hj2
            have hh := h4 j (by omega) hj2
            have he : j - i = (j - (i + 1)) + 1 := by omega
            rw [he] at hh
            simpa using hh

theorem getMemoryTypeLoop_error (properties filter : Nat)
    (hf : filter < 2 ^ 32) :
    ∀ (memoryTypes : List Nat) (i : Nat),
      getMemoryTypeLoop memoryTypes properties filter i (2 ^ i % 2 ^ 32) =
          Except.error "Cannot find suitable memory type!" ↔
        ∀ d, d < memoryTypes.length →
          ¬ (filter.testBit (i + d) = true ∧
             memoryTypes.getD d 0 &&& properties = properties) := by
  intro memoryTypes
  induction memoryTypes with
  | nil => intro i; simp [getMemoryTypeLoop]
  | cons t rest ih =>
      intro i
      simp only [getMemoryTypeLoop, List.length_cons]
      split_ifs with hcond
      · have hbit : filter.testBit i = true :=
          (filter_and_mask filter i hf).mp hcond.1
        constructor
        · intro h; simp at h
        · intro h
          have h0 := h 0 (by omega)
          simp only [List.getD_cons_zero, Nat.add_zero] at h0
          exact absurd ⟨hbit, hcond.2⟩ h0
      · rw [mask_step, ih (i + 1)]
        constructor
        · intro h d hd
          cases d with
          | zero =>
              intro hc
              exact hcond ⟨(filter_and_mask filter i hf).mpr
                (by simpa using hc.1), by simpa using hc.2⟩
          | succ e =>
              have hh := h e (by omega)
              have he : i + 1 + e = i + (e + 1) := by omega
              rw [he] at hh
              simpa using hh
        · intro h d hd
          have hh := h (d + 1) (by omega)
          have he : i + (d + 1) = i + 1 + d := by omega
          rw [he] at hh
          simpa using hh

/-- C1: for every memory-type list, required-flags set, and 32-bit filter
mask, getMemoryType returns the lowest index i such that bit i of the
filter mask is set and the type's property flags are a superset of the
required flags, and it fails with the memory-type-unavailable error if
and only if no such index exists. -/
theorem getMemoryType_spec (memoryTypes : List Nat) (properties filter : Nat)
    (hf : filter < 2 ^ 32) :
    (∀ k, getMemoryType memoryTypes properties filter = Except.ok k ↔
        (k < memoryTypes.length ∧ acceptsType memoryTypes properties filter k ∧
         ∀ j, j < k → ¬ acceptsType memoryTypes properties filter j)) ∧
    (getMemoryType memoryTypes properties filter =
        Except.error "Cannot find suitable memory type!" ↔
      ∀ j, j < memoryTypes.length →
        ¬ acceptsType memoryTypes properties filter j) := by
  have h1 : (1 : Nat) = 2 ^ 0 % 2 ^ 32 := by norm_num
  constructor
  · intro k
    rw [getMemoryType, h1, getMemoryTypeLoop_ok properties filter hf memoryTypes 0 k]
    unfold acceptsType
    constructor
    · rintro ⟨-, h2, h3, h4⟩
      exact ⟨by omega, by simpa using h3, fun j hj => by simpa using h4 j (by omega) hj⟩
    · rintro ⟨h2, h3, h4⟩
      exact ⟨by omega, by omega, by simpa using h3,
        fun j _ hj => by simpa using h4 j hj⟩
  · rw [getMemoryType, h1, getMemoryTypeLoop_error properties filter hf memoryTypes 0]
    unfold acceptsType
    constructor
    · intro h j hj
      simpa using h j hj
    · intro h d hd
      simpa using h d hd

/-- Witness: on the concrete list [0, 7] with required flags 5 and filter
mask 2 (only bit 1 set), getMemoryType returns index 1, which the spec
predicate confirms as the lowest acceptable index. -/
theorem getMemoryType_spec_witness :
    getMemoryType [0, 7] 5 2 = Except.ok 1 ∧
      acceptsType [0, 7] 5 2 1 ∧ ¬ acceptsType [0, 7] 5 2 0 := by
  have h := ((getMemoryType_spec [0, 7] 5 2 (by norm_num)).1 1).mpr
    ⟨by norm_num, by decide, by intro j hj; interval_cases j; decide⟩
  exact ⟨h, by decide, by decide⟩

/-- VkSharingMode values used by the source. -/
inductive SharingMode
  | exclusive
  | concurrent
deriving DecidableEq, Repr, Inhabited

/-- The fields of VkBufferCreateInfo that the source fills in. -/
structure VkBufferCreateInfo where
  size : Nat
  usage : Nat
  sharingMode : SharingMode
  queueFamilyIndexCount : Nat
  pQueueFamilyIndices : List Nat
deriving DecidableEq, Repr, Inhabited

/-- The fields of VmaAllocationCreateInfo that the source fills in. -/
structure VmaAllocationCreateInfo where
  usage : Nat
  requiredFlags : Nat
deriving DecidableEq, Repr, Inhabited

/-- One call to vmaCreateBuffer, as issued against the allocator. -/
structure CreateCall where
  allocator : Nat
  info : VkBufferCreateInfo
  allocInfo : VmaAllocationCreateInfo
deriving DecidableEq, Repr, Inhabited

/-- One call to vmaDestroyBuffer. -/
structure DestroyCall where
  allocator : Nat
  buffer : Nat
  allocation : Nat
deriving DecidableEq, Repr, Inhabited

/-- The Buffers::Buffer member fields as used throughout src/Buffers.cc:
logicalDev is the stored VkDevice* (none models nullptr), allocator the
stored VmaAllocator*, size the stored size_t, vertexBuffer and allocation
the owned handle pair. -/
structure Buffer where
  logicalDev : Option Nat
  allocator : Nat
  size : Nat
  vertexBuffer : Nat
  allocation : Nat
deriving DecidableEq, Repr, Inhabited

/-- Buffers::Buffer::isInitialized (src/Buffers.cc lines 85-88):
true iff logicalDev is not null. -/
def Buffer.isInitialized (b : Buffer) : Bool :=
  b.logicalDev.isSome

/-- Buffers::Buffer::getSize (src/Buffers.cc lines 90-93): the stored
size_t is cast to uint32_t, which wraps at 2^32. -/
def Buffer.getSize (b : Buffer) : Nat :=
  b.size % 2 ^ 32

/-- The VkBufferCreateInfo filled in by Buffers::Buffer::createVertexBuffer
(src/Buffers.cc lines 100-106): exclusive sharing, no queue family list. -/
def createVertexBufferInfo (size usage : Nat) : VkBufferCreateInfo :=
  { size := size, usage := usage, sharingMode := SharingMode.exclusive,
    queueFamilyIndexCount := 0, pQueueFamilyIndices := [] }

/-- The VkBufferCreateInfo filled in by
Buffers::Buffer::createVertexBufferConcurrent (src/Buffers.cc lines
121-131): concurrent sharing; queueFamilyIndexCount is the std::set's
size cast to uint32_t, and the set is copied into the index vector in
its iteration order, which for std::set of uint32_t is ascending. -/
def createVertexBufferConcurrentInfo (size usage : Nat) (queues : Finset Nat) :
    VkBufferCreateInfo :=
  { size := size, usage := usage, sharingMode := SharingMode.concurrent,
    queueFamilyIndexCount := queues.card % 2 ^ 32,
    pQueueFamilyIndices := queues.sort (· ≤ ·) }

set_option linter.unusedVariables false in
/-- Buffers::Buffer::Buffer (src/Buffers.cc lines 30-50).  usedQueues is
the optUint32Set argument (std::optional of std::set of uint32_t),
modelled as an optional finite set; newBuffer and newAllocation are the
handles vmaCreateBuffer writes back on success and createResult its
VkResult.  The result is the constructed object (or, when
CHECK_VK_SUCCESS fires, the error message) paired with the list of
vmaCreateBuffer calls issued. -/
def Buffer.construct (dev allocatorH physicalDev bufferSize bufferUsageFlags
    memoryUsage memoryFlags : Nat) (usedQueues : Option (Finset Nat))
    (newBuffer newAllocation : Nat) (createResult : Int) :
    Except String Buffer × List CreateCall :=
  let info :=
    match usedQueues with
    | some qs =>
        if 1 < qs.card then
          createVertexBufferConcurrentInfo bufferSize bufferUsageFlags qs
        else createVertexBufferInfo bufferSize bufferUsageFlags
    | none => createVertexBufferInfo bufferSize bufferUsageFlags
  let call : CreateCall :=
    { allocator := allocatorH, info := info,
      allocInfo := { usage := memoryUsage, requiredFlags := memoryFlags } }
  (if createResult = 0 then
      Except.ok { logicalDev := some dev, allocator := allocatorH,
                  size := bufferSize, vertexBuffer := newBuffer,
                  allocation := newAllocation }
    else Except.error "Cannot create buffer!",
   [call])

/-- Buffers::Buffer's move constructor (src/Buffers.cc lines 52-58):
returns the newly constructed destination and the source as the
constructor leaves it (logicalDev nulled, other fields untouched). -/
def Buffer.moveConstruct (buf : Buffer) : Buffer × Buffer :=
  ({ logicalDev := buf.logicalDev, allocator := buf.allocator,
     size := buf.size, vertexBuffer := buf.vertexBuffer,
     allocation := buf.allocation },
   { buf with logicalDev := none })

set_option linter.unusedVariables false in
/-- Buffers::Buffer::operator= for rvalue references (src/Buffers.cc
lines 60-70): every field of the target is overwritten from the source
and the source's logicalDev is nulled.  The second component records the
vmaDestroyBuffer calls made during the assignment; the source code of
the operator contains none, so the list is empty. -/
def Buffer.moveAssign (target buf : Buffer) :
    (Buffer × Buffer) × List DestroyCall :=
  (({ logicalDev := buf.logicalDev, allocator := buf.allocator,
      size := buf.size, vertexBuffer := buf.vertexBuffer,
      allocation := buf.allocation },
    { buf with logicalDev := none }),
   [])

/-- Buffers::Buffer::~Buffer (src/Buffers.cc lines 72-78): calls
vmaDestroyBuffer on the handle pair iff the object is initialized;
the result is the list of vmaDestroyBuffer calls made. -/
def Buffer.destroy (b : Buffer) : List DestroyCall :=
  if b.isInitialized then
    [{ allocator := b.allocator, buffer := b.vertexBuffer,
       allocation := b.allocation }]
  else []

/-- C2: every construction issues exactly one vmaCreateBuffer call; when
the optional queue-family set is present with more than one element the
create info uses concurrent sharing and its queue-family index list is
exactly the supplied set, otherwise (absent, or of size 0 or 1) the
create info uses exclusive sharing. -/
theorem construct_sharing_spec
    (dev allocatorH physicalDev bufferSize bufferUsageFlags memoryUsage
      memoryFlags : Nat) (usedQueues : Option (Finset Nat))
    (newBuffer newAllocation : Nat) (createResult : Int) :
    (Buffer.construct dev allocatorH physicalDev bufferSize bufferUsageFlags
        memoryUsage memoryFlags usedQueues newBuffer newAllocation
        createResult).2.length = 1 ∧
    (∀ qs, usedQueues = some qs → 1 < qs.card →
      ((Buffer.construct dev allocatorH physicalDev bufferSize
          bufferUsageFlags memoryUsage memoryFlags usedQueues newBuffer
          newAllocation createResult).2.headD default).info.sharingMode =
          SharingMode.concurrent ∧
      ((Buffer.construct dev allocatorH physicalDev bufferSize
          bufferUsageFlags memoryUsage memoryFlags usedQueues newBuffer
          newAllocation createResult).2.headD
            default).info.pQueueFamilyIndices.toFinset = qs) ∧
    ((usedQueues = none ∨ ∃ qs, usedQueues = some qs ∧ qs.card ≤ 1) →
      ((Buffer.construct dev allocatorH physicalDev bufferSize
          bufferUsageFlags memoryUsage memoryFlags usedQueues newBuffer
          newAllocation createResult).2.headD default).info.sharingMode =
        SharingMode.exclusive) := by
  refine ⟨by simp [Buffer.construct], ?_, ?_⟩
  · rintro qs rfl hcard
    simp [Buffer.construct, hcard, createVertexBufferConcurrentInfo,
      Finset.sort_toFinset]
  · rintro (rfl | ⟨qs, rfl, hcard⟩)
    · simp [Buffer.construct, createVertexBufferInfo]
    · have h1 : ¬ 1 < qs.card := by omega
      simp [Buffer.construct, h1, createVertexBufferInfo]

/-- Witness for C2: constructing with the queue-family set containing 0
and 2 yields one create call using concurrent sharing whose index list is
exactly that set; constructing with no set yields exclusive sharing. -/
theorem construct_sharing_spec_witness :
    ((Buffer.construct 1 2 3 256 0 0 0 (some {0, 2}) 7 8 0).2.length = 1 ∧
     ((Buffer.construct 1 2 3 256 0 0 0 (some {0, 2}) 7 8
         0).2.headD default).info.sharingMode = SharingMode.concurrent ∧
     ((Buffer.construct 1 2 3 256 0 0 0 (some {0, 2}) 7 8
         0).2.headD default).info.pQueueFamilyIndices.toFinset =
       ({0, 2} : Finset Nat)) ∧
    ((Buffer.construct 1 2 3 256 0 0 0 none 7 8 0).2.headD
        default).info.sharingMode = SharingMode.exclusive := by
  have h := construct_sharing_spec 1 2 3 256 0 0 0 (some {0, 2}) 7 8 0
  have hx := construct_sharing_spec 1 2 3 256 0 0 0 none 7 8 0
  have hc := h.2.1 {0, 2} rfl (by decide)
  exact ⟨⟨h.1, hc.1, hc.2⟩, hx.2.2 (Or.inl rfl)⟩

/-- C5: move construction and move assignment leave the source reporting
isInitialized() = false while the destination holds the source's original
bufferHandle and allocationHandle; destroying a moved-from object makes
no vmaDestroyBuffer call, and destroying both the destination and the
moved-from source makes exactly the calls destroying the original alone
would have made, so the handle pair is released at most once. -/
theorem move_spec (a target : Buffer) :
    Buffer.isInitialized (Buffer.moveConstruct a).2 = false ∧
    (Buffer.moveConstruct a).1.vertexBuffer = a.vertexBuffer ∧
    (Buffer.moveConstruct a).1.allocation = a.allocation ∧
    Buffer.destroy (Buffer.moveConstruct a).2 = [] ∧
    Buffer.isInitialized (Buffer.moveAssign target a).1.2 = false ∧
    (Buffer.moveAssign target a).1.1.vertexBuffer = a.vertexBuffer ∧
    (Buffer.moveAssign target a).1.1.allocation = a.allocation ∧
    Buffer.destroy (Buffer.moveAssign target a).1.2 = [] ∧
    Buffer.destroy (Buffer.moveConstruct a).1 ++
        Buffer.destroy (Buffer.moveConstruct a).2 = Buffer.destroy a := by
  refine ⟨rfl, rfl, rfl, rfl, rfl, rfl, rfl, rfl, ?_⟩
  simp [Buffer.moveConstruct, Buffer.destroy, Buffer.isInitialized]

/-- C10: move assignment issues no vmaDestroyBuffer call; the target's
old handle pair is simply overwritten by the source's, and provided the
two objects hold different handle pairs, no destructor run on either
resulting object ever names the target's old pair. -/
theorem moveAssign_frame (target a : Buffer)
    (hne : target.vertexBuffer ≠ a.vertexBuffer ∨
      target.allocation ≠ a.allocation) :
    (Buffer.moveAssign target a).2 = [] ∧
    (Buffer.moveAssign target a).1.1.vertexBuffer = a.vertexBuffer ∧
    (Buffer.moveAssign target a).1.1.allocation = a.allocation ∧
    ∀ c ∈ Buffer.destroy (Buffer.moveAssign target a).1.1 ++
        Buffer.destroy (Buffer.moveAssign target a).1.2,
      ¬ (c.buffer = target.vertexBuffer ∧
         c.allocation = target.allocation) := by
  refine ⟨rfl, rfl, rfl, ?_⟩
  intro c hc
  simp only [Buffer.moveAssign, Buffer.destroy, Buffer.isInitialized] at hc
  rcases hne with hne | hne
  all_goals
    rintro ⟨hb, ha⟩
    split_ifs at hc <;> simp at hc <;> subst hc <;> simp_all

/-- Witness for C10: assigning from a buffer with handle pair (7, 8) into
one with pair (5, 6) destroys nothing during the assignment, and later
destructor runs on the two resulting objects never name (5, 6). -/
theorem moveAssign_frame_witness :
    (Buffer.moveAssign ⟨some 1, 2, 16, 5, 6⟩ ⟨some 1, 2, 32, 7, 8⟩).2 = [] ∧
    (Buffer.moveAssign ⟨some 1, 2, 16, 5, 6⟩
        ⟨some 1, 2, 32, 7, 8⟩).1.1.vertexBuffer = 7 ∧
    (Buffer.moveAssign ⟨some 1, 2, 16, 5, 6⟩
        ⟨some 1, 2, 32, 7, 8⟩).1.1.allocation = 8 ∧
    ¬ ((⟨2, 7, 8⟩ : DestroyCall).buffer = 5 ∧
       (⟨2, 7, 8⟩ : DestroyCall).allocation = 6) := by
  have h := moveAssign_frame ⟨some 1, 2, 16, 5, 6⟩ ⟨some 1, 2, 32, 7, 8⟩
    (Or.inl (by decide))
  exact ⟨h.1, h.2.1, h.2.2.1, h.2.2.2 ⟨2, 7, 8⟩ (by decide)⟩

/-- Events of a host upload: the vmaMapMemory call, the memcpy of n bytes
starting at the mapped base, and the vmaUnmapMemory call. -/
inductive MemEvent
  | mapMemory
  | copyBytes (n : Nat)
  | unmapMemory
deriving DecidableEq, Repr, Inhabited

/-- C's memcpy(dest, source, n) on byte lists: the first n bytes of dest
are replaced by the first n bytes of source. -/
def memcpy (dest source : List Nat) (n : Nat) : List Nat :=
  source.take n ++ dest.drop n

set_option linter.unusedVariables false in
/-- Buffers::Buffer::loadData (src/Buffers.cc lines 145-155).  content is
the current byte content of the buffer's allocation, data the caller's
source bytes, offset the offset argument, and mapResult the VkResult
vmaMapMemory produces.  The result is the VkResult loadData returns,
the allocation's content afterwards, and the events performed. -/
def Buffer.loadData (b : Buffer) (content data : List Nat) (offset : Nat)
    (mapResult : Int) : Int × List Nat × List MemEvent :=
  if mapResult = 0 then
    (mapResult, memcpy content data b.size,
     [MemEvent.mapMemory, MemEvent.copyBytes b.size, MemEvent.unmapMemory])
  else
    (mapResult, content, [MemEvent.mapMemory])

/-- C4: a successful loadData maps the allocation, copies exactly the
buffer's declared size in bytes from the source to the mapped base, then
unmaps; the offset argument changes neither the copy's destination nor
its length — the whole result is identical for any two offsets. -/
theorem loadData_spec (b : Buffer) (content data : List Nat)
    (offset offset2 : Nat) (mapResult : Int) (h : mapResult = 0) :
    Buffer.loadData b content data offset mapResult =
      (0, memcpy content data b.size,
       [MemEvent.mapMemory, MemEvent.copyBytes b.size,
        MemEvent.unmapMemory]) ∧
    Buffer.loadData b content data offset mapResult =
      Buffer.loadData b content data offset2 mapResult := by
  subst h
  exact ⟨by simp [Buffer.loadData], rfl⟩

/-- Witness for C4: loading 5 source bytes into a 4-byte buffer writes
the first 4 source bytes at the mapped base, and offsets 0 and 3 give
identical results. -/
theorem loadData_spec_witness :
    Buffer.loadData ⟨some 1, 2, 4, 5, 6⟩ [9, 9, 9, 9] [1, 2, 3, 4, 5] 0 0 =
      (0, [1, 2, 3, 4],
       [MemEvent.mapMemory, MemEvent.copyBytes 4, MemEvent.unmapMemory]) ∧
    Buffer.loadData ⟨some 1, 2, 4, 5, 6⟩ [9, 9, 9, 9] [1, 2, 3, 4, 5] 0 0 =
      Buffer.loadData ⟨some 1, 2, 4, 5, 6⟩ [9, 9, 9, 9] [1, 2, 3, 4, 5] 3 0 := by
  have h := loadData_spec ⟨some 1, 2, 4, 5, 6⟩ [9, 9, 9, 9] [1, 2, 3, 4, 5]
    0 3 0 rfl
  exact ⟨by rw [h.1]; rfl, h.2⟩

/-- C6: loadData hands the mapping VkResult back to the caller as a
status; when the map step fails it performs no copy and no unmap and
leaves the buffer content unchanged, and in general the unmap call
happens if and only if the map succeeded. -/
theorem loadData_mapFail_spec (b : Buffer) (content data : List Nat)
    (offset : Nat) (mapResult : Int) (h : mapResult ≠ 0) :
    (Buffer.loadData b content data offset mapResult).1 = mapResult ∧
    (Buffer.loadData b content data offset mapResult).2.1 = content ∧
    (Buffer.loadData b content data offset mapResult).2.2 =
      [MemEvent.mapMemory] ∧
    (∀ mr : Int, MemEvent.unmapMemory ∈
        (Buffer.loadData b content data offset mr).2.2 ↔ mr = 0) := by
  refine ⟨?_, ?_, ?_, ?_⟩
  · simp [Buffer.loadData, h]
  · simp [Buffer.loadData, h]
  · simp [Buffer.loadData, h]
  · intro mr
    by_cases hmr : mr = 0 <;> simp [Buffer.loadData, hmr]

/-- Witness for C6: with vmaMapMemory returning -1, loadData returns -1,
leaves the 4 content bytes untouched, performs only the map call, and
the unmap event is absent. -/
theorem loadData_mapFail_spec_witness :
    (Buffer.loadData ⟨some 1, 2, 4, 5, 6⟩ [9, 9, 9, 9] [1, 2, 3, 4] 0
        (-1)).1 = -1 ∧
    (Buffer.loadData ⟨some 1, 2, 4, 5, 6⟩ [9, 9, 9, 9] [1, 2, 3, 4] 0
        (-1)).2.1 = [9, 9, 9, 9] ∧
    (Buffer.loadData ⟨some 1, 2, 4, 5, 6⟩ [9, 9, 9, 9] [1, 2, 3, 4] 0
        (-1)).2.2 = [MemEvent.mapMemory] ∧
    (MemEvent.unmapMemory ∈
      (Buffer.loadData ⟨some 1, 2, 4, 5, 6⟩ [9, 9, 9, 9] [1, 2, 3, 4] 0
        (-1)).2.2 ↔ (-1 : Int) = 0) := by
  have h := loadData_mapFail_spec ⟨some 1, 2, 4, 5, 6⟩ [9, 9, 9, 9]
    [1, 2, 3, 4] 0 (-1) (by norm_num)
  exact ⟨h.1, h.2.1, h.2.2.1, h.2.2.2 (-1)⟩

/-- C9: when the source provides at least size bytes, a successful
loadData of x followed by a host read of the mapped region yields x's
first size bytes unchanged, and repeating the identical loadData leaves
the buffer content unchanged. -/
theorem loadData_roundTrip (b : Buffer) (content x : List Nat)
    (offset : Nat) (hsz : b.size ≤ x.length) :
    ((Buffer.loadData b content x offset 0).2.1).take b.size =
      x.take b.size ∧
    (Buffer.loadData b ((Buffer.loadData b content x offset 0).2.1) x
        offset 0).2.1 =
      (Buffer.loadData b content x offset 0).2.1 := by
  have h0 : ∀ c : List Nat, (Buffer.loadData b c x offset 0).2.1 =
      memcpy c x b.size := by
    intro c; simp [Buffer.loadData]
  simp only [h0]
  have hlen : (x.take b.size).length = b.size := by
    rw [List.length_take]; omega
  constructor
  · unfold memcpy
    simp [List.take_append_eq_append_take, List.take_take, hlen]
  · show memcpy (memcpy content x b.size) x b.size = memcpy content x b.size
    unfold memcpy
    congr 1
    have h2 : (x.take b.size).drop b.size = [] :=
      List.drop_eq_nil_of_le (by omega)
    simp [List.drop_append_eq_append_drop, h2, hlen]

/-- Witness for C9: loading [1, 2, 3, 4] into a 3-byte buffer makes the
mapped region read [1, 2, 3], and loading the same bytes again leaves
the content unchanged. -/
theorem loadData_roundTrip_witness :
    ((Buffer.loadData ⟨some 1, 2, 3, 5, 6⟩ [7, 7, 7] [1, 2, 3, 4] 0
        0).2.1).take 3 = [1, 2, 3] ∧
    (Buffer.loadData ⟨some 1, 2, 3, 5, 6⟩
        ((Buffer.loadData ⟨some 1, 2, 3, 5, 6⟩ [7, 7, 7] [1, 2, 3, 4] 0
          0).2.1) [1, 2, 3, 4] 0 0).2.1 =
      (Buffer.loadData ⟨some 1, 2, 3, 5, 6⟩ [7, 7, 7] [1, 2, 3, 4] 0
        0).2.1 := by
  have h := loadData_roundTrip ⟨some 1, 2, 3, 5, 6⟩ [7, 7, 7] [1, 2, 3, 4]
    0 (by norm_num)
  exact ⟨by rw [h.1]; rfl, h.2⟩

/-- A VkBufferCopy region as filled in by the source. -/
structure VkBufferCopy where
  srcOffset : Nat
  dstOffset : Nat
  size : Nat
deriving DecidableEq, Repr, Inhabited

/-- One vkCmdCopyBuffer command recorded into a command buffer: source
and destination buffer handles and the single region passed. -/
structure CopyCmd where
  srcBuffer : Nat
  dstBuffer : Nat
  region : VkBufferCopy
deriving DecidableEq, Repr, Inhabited

/-- Buffers::Buffer::cmdCopyDataFrom (src/Buffers.cc lines 157-165):
appends to the open command buffer one vkCmdCopyBuffer command whose
single region has srcOffset 0, dstOffset 0, and size = the destination
buffer's size. -/
def Buffer.cmdCopyDataFrom (b : Buffer) (src : Nat)
    (transferBuffer : List CopyCmd) : List CopyCmd :=
  transferBuffer ++
    [{ srcBuffer := src, dstBuffer := b.vertexBuffer,
       region := { srcOffset := 0, dstOffset := 0, size := b.size } }]

/-- Execution by the device of one submitted copy region: size bytes of
the source starting at srcOffset replace the destination's bytes
starting at dstOffset. -/
def execCopyRegion (srcMem dstMem : List Nat) (r : VkBufferCopy) :
    List Nat :=
  dstMem.take r.dstOffset ++ (srcMem.drop r.srcOffset).take r.size ++
    dstMem.drop (r.dstOffset + r.size)

/-- Modelled from the spec: the error taxonomy of the one-shot transfer
(CommandRecordingFailed for the allocate/begin/end steps,
QueueSubmitFailed, QueueWaitFailed).  The ErrorMessages constants named
in src/Buffers.cc lines 179-201 are declared in a header that is not
among the sources. -/
inductive TransferError
  | cannotCreateCmdBuffer
  | cannotBeginCmdBuffer
  | cannotEndCmdBuffer
  | cannotSubmitQueue
  | failedWaitIdle
deriving DecidableEq, Repr, Inhabited

/-- The VkResults of the five external calls a one-shot transfer makes. -/
structure TransferSteps where
  allocResult : Int
  beginResult : Int
  endResult : Int
  submitResult : Int
  waitResult : Int
deriving DecidableEq, Repr, Inhabited

/-- Observable outcome of Buffers::Buffer::copyDataFrom: the surfaced
result, the number of command buffers allocated from the pool and not
freed when the call ends, the commands recorded into the command buffer,
and the commands actually submitted to the queue. -/
structure TransferOutcome where
  result : Except TransferError Unit
  liveCmdBuffers : Nat
  recorded : List CopyCmd
  submitted : List CopyCmd
deriving Repr, Inhabited

/-- Buffers::Buffer::copyDataFrom (src/Buffers.cc lines 167-203), with
the VkResult of each external call supplied in steps.  CHECK_VK_SUCCESS
is modelled from the spec, its defining header not being among the
sources: the spec states that a failing step is fatal and surfaced
immediately, so a non-zero VkResult stops execution at that step with
the corresponding error.  vkFreeCommandBuffers runs only at the end of
the all-success path, so on every failure path after a successful
allocation the allocated command buffer stays live. -/
def Buffer.copyDataFrom (b : Buffer) (src : Nat) (steps : TransferSteps) :
    TransferOutcome :=
  if steps.allocResult ≠ 0 then
    { result := Except.error TransferError.cannotCreateCmdBuffer,
      liveCmdBuffers := 0, recorded := [], submitted := [] }
  else if steps.beginResult ≠ 0 then
    { result := Except.error TransferError.cannotBeginCmdBuffer,
      liveCmdBuffers := 1, recorded := [], submitted := [] }
  else
    let recorded := Buffer.cmdCopyDataFrom b src []
    if steps.endResult ≠ 0 then
      { result := Except.error TransferError.cannotEndCmdBuffer,
        liveCmdBuffers := 1, recorded := recorded, submitted := [] }
    else if steps.submitResult ≠ 0 then
      { result := Except.error TransferError.cannotSubmitQueue,
        liveCmdBuffers := 1, recorded := recorded, submitted := [] }
    else if steps.waitResult ≠ 0 then
      { result := Except.error TransferError.failedWaitIdle,
        liveCmdBuffers := 1, recorded := recorded, submitted := recorded }
    else
      { result := Except.ok (), liveCmdBuffers := 0, recorded := recorded,
        submitted := recorded }

/-- C3: when every step succeeds, copyDataFrom records a single
copy-region command with source offset 0, destination offset 0, and
length equal to the destination's size, submits exactly what it
recorded, and executing the submitted region leaves the destination's
memory equal to the source's first dst.size bytes. -/
theorem copyDataFrom_spec (b : Buffer) (src : Nat) (srcMem dstMem : List Nat)
    (hdst : dstMem.length = b.size) :
    (Buffer.copyDataFrom b src ⟨0, 0, 0, 0, 0⟩).result = Except.ok () ∧
    (Buffer.copyDataFrom b src ⟨0, 0, 0, 0, 0⟩).recorded =
      [{ srcBuffer := src, dstBuffer := b.vertexBuffer,
         region := { srcOffset := 0, dstOffset := 0, size := b.size } }] ∧
    (Buffer.copyDataFrom b src ⟨0, 0, 0, 0, 0⟩).submitted =
      (Buffer.copyDataFrom b src ⟨0, 0, 0, 0, 0⟩).recorded ∧
    execCopyRegion srcMem dstMem
        { srcOffset := 0, dstOffset := 0, size := b.size } =
      srcMem.take b.size := by
  refine ⟨rfl, by simp [Buffer.copyDataFrom, Buffer.cmdCopyDataFrom], rfl, ?_⟩
  have h1 : dstMem.drop b.size = [] := by
    apply List.drop_eq_nil_of_le; omega
  simp [execCopyRegion, h1]

/-- Witness for C3: a 2-byte destination with all steps succeeding
records and submits the single region of size 2, and executing it turns
destination memory [9, 9] into the source's first 2 bytes [1, 2]. -/
theorem copyDataFrom_spec_witness :
    (Buffer.copyDataFrom ⟨some 1, 2, 2, 5, 6⟩ 7 ⟨0, 0, 0, 0, 0⟩).result =
      Except.ok () ∧
    (Buffer.copyDataFrom ⟨some 1, 2, 2, 5, 6⟩ 7 ⟨0, 0, 0, 0, 0⟩).recorded =
      [{ srcBuffer := 7, dstBuffer := 5,
         region := { srcOffset := 0, dstOffset := 0, size := 2 } }] ∧
    (Buffer.copyDataFrom ⟨some 1, 2, 2, 5, 6⟩ 7 ⟨0, 0, 0, 0, 0⟩).submitted =
      (Buffer.copyDataFrom ⟨some 1, 2, 2, 5, 6⟩ 7 ⟨0, 0, 0, 0, 0⟩).recorded ∧
    execCopyRegion [1, 2, 3] [9, 9]
        { srcOffset := 0, dstOffset := 0, size := 2 } = [1, 2] := by
  have h := copyDataFrom_spec ⟨some 1, 2, 2, 5, 6⟩ 7 [1, 2, 3] [9, 9] rfl
  exact ⟨h.1, h.2.1, h.2.2.1, by rw [h.2.2.2]; rfl⟩

/-- C7 counterexample: with allocation succeeding and the begin step
failing, copyDataFrom surfaces the failure immediately, yet the command
buffer allocated from the pool is still live afterwards — partial
command-buffer state does remain. -/
theorem copyDataFrom_leak_counterexample :
    (Buffer.copyDataFrom ⟨some 1, 2, 4, 5, 6⟩ 7 ⟨0, 1, 0, 0, 0⟩).result =
      Except.error TransferError.cannotBeginCmdBuffer ∧
    (Buffer.copyDataFrom ⟨some 1, 2, 4, 5, 6⟩ 7
        ⟨0, 1, 0, 0, 0⟩).liveCmdBuffers = 1 ∧
    (1 : Nat) ≠ 0 := by
  exact ⟨rfl, rfl, by norm_num⟩

/-- C7 (amended): any failing step is surfaced immediately as the
corresponding fatal error; cleanup happens only on the all-success path,
so when a step after a successful allocation fails, the allocated
command buffer remains live, while an allocation failure leaves nothing
live. -/
theorem copyDataFrom_failure_spec (b : Buffer) (src : Nat)
    (steps : TransferSteps) :
    ((Buffer.copyDataFrom b src steps).result = Except.ok () ↔
      steps.allocResult = 0 ∧ steps.beginResult = 0 ∧
      steps.endResult = 0 ∧ steps.submitResult = 0 ∧
      steps.waitResult = 0) ∧
    (steps.allocResult ≠ 0 →
      (Buffer.copyDataFrom b src steps).result =
        Except.error TransferError.cannotCreateCmdBuffer ∧
      (Buffer.copyDataFrom b src steps).liveCmdBuffers = 0) ∧
    (steps.allocResult = 0 →
      ¬ (steps.beginResult = 0 ∧ steps.endResult = 0 ∧
          steps.submitResult = 0 ∧ steps.waitResult = 0) →
      (Buffer.copyDataFrom b src steps).result ≠ Except.ok () ∧
      (Buffer.copyDataFrom b src steps).liveCmdBuffers = 1) ∧
    ((Buffer.copyDataFrom b src steps).result = Except.ok () →
      (Buffer.copyDataFrom b src steps).liveCmdBuffers = 0) := by
  rcases steps with ⟨ra, rb, re, rs, rwi⟩
  by_cases h1 : ra = 0 <;> by_cases h2 : rb = 0 <;> by_cases h3 : re = 0 <;>
    by_cases h4 : rs = 0 <;> by_cases h5 : rwi = 0 <;>
    simp [Buffer.copyDataFrom, h1, h2, h3, h4, h5]

/-- Witness for C7 (amended): all steps succeeding yields success with no
live command buffer; an end-step failure leaves one live command
buffer. -/
theorem copyDataFrom_failure_spec_witness :
    (Buffer.copyDataFrom ⟨some 1, 2, 4, 5, 6⟩ 7 ⟨0, 0, 0, 0, 0⟩).result =
      Except.ok () ∧
    (Buffer.copyDataFrom ⟨some 1, 2, 4, 5, 6⟩ 7
        ⟨0, 0, 0, 0, 0⟩).liveCmdBuffers = 0 ∧
    (Buffer.copyDataFrom ⟨some 1, 2, 4, 5, 6⟩ 7
        ⟨0, 0, 1, 0, 0⟩).liveCmdBuffers = 1 := by
  have h1 := copyDataFrom_failure_spec ⟨some 1, 2, 4, 5, 6⟩ 7 ⟨0, 0, 0, 0, 0⟩
  have h2 := copyDataFrom_failure_spec ⟨some 1, 2, 4, 5, 6⟩ 7 ⟨0, 0, 1, 0, 0⟩
  have hok := h1.1.mpr ⟨rfl, rfl, rfl, rfl, rfl⟩
  exact ⟨hok, h1.2.2.2 hok, (h2.2.2.1 rfl (by simp)).2⟩

/-- C8 counterexample: a Buffer successfully constructed with sizeBytes
2^32 stores size 2^32, but getSize returns 0 — the uint32_t cast in
getSize truncates, so getSize does not always return the construction
size. -/
theorem getSize_counterexample :
    (Buffer.construct 1 2 3 (2 ^ 32) 0 0 0 none 7 8 0).1 =
      Except.ok ⟨some 1, 2, 2 ^ 32, 7, 8⟩ ∧
    Buffer.getSize ⟨some 1, 2, 2 ^ 32, 7, 8⟩ = 0 ∧
    (0 : Nat) ≠ 2 ^ 32 := by
  refine ⟨by simp [Buffer.construct], ?_, by norm_num⟩
  show (2 ^ 32 : Nat) % 2 ^ 32 = 0
  simp

/-- C8 (amended): a successfully constructed Buffer stores size equal to
the sizeBytes passed at construction, is initialized, and both move
operations hand that size on unchanged; getSize returns the size reduced
modulo 2^32, hence exactly the construction size whenever sizeBytes is
below 2^32 (in particular a 256-byte buffer reports getSize() = 256). -/
theorem getSize_spec (dev allocatorH physicalDev bufferSize bufferUsageFlags
    memoryUsage memoryFlags : Nat) (usedQueues : Option (Finset Nat))
    (newBuffer newAllocation : Nat) (createResult : Int) (b : Buffer)
    (hok : (Buffer.construct dev allocatorH physicalDev bufferSize
        bufferUsageFlags memoryUsage memoryFlags usedQueues newBuffer
        newAllocation createResult).1 = Except.ok b) :
    b.size = bufferSize ∧
    Buffer.isInitialized b = true ∧
    (Buffer.moveConstruct b).1.size = bufferSize ∧
    (∀ t, (Buffer.moveAssign t b).1.1.size = bufferSize) ∧
    Buffer.getSize b = bufferSize % 2 ^ 32 ∧
    (bufferSize < 2 ^ 32 → Buffer.getSize b = bufferSize) := by
  by_cases hcr : createResult = 0
  · simp only [Buffer.construct, hcr, if_pos] at hok
    have hb : b = ⟨some dev, allocatorH, bufferSize, newBuffer,
        newAllocation⟩ := by
      cases hok
      rfl
    subst hb
    refine ⟨rfl, rfl, rfl, fun t => rfl, rfl, ?_⟩
    intro h
    show bufferSize % 2 ^ 32 = bufferSize
    exact Nat.mod_eq_of_lt h
  · simp [Buffer.construct, hcr] at hok

/-- Witness for C8 (amended): the 256-byte exclusive-sharing scenario:
the constructed buffer is initialized and reports getSize() = 256. -/
theorem getSize_spec_witness :
    (⟨some 1, 2, 256, 7, 8⟩ : Buffer).size = 256 ∧
    Buffer.isInitialized ⟨some 1, 2, 256, 7, 8⟩ = true ∧
    Buffer.getSize ⟨some 1, 2, 256, 7, 8⟩ = 256 := by
  have h := getSize_spec 1 2 3 256 0 0 0 none 7 8 0
    ⟨some 1, 2, 256, 7, 8⟩ (by simp [Buffer.construct])
  exact ⟨h.1, h.2.1, h.2.2.2.2.2 (by norm_num)⟩

end Buffers
